import Mathlib

/-!
Verification of the agent-orchestrator repository (src/main.py and
src/functions/get_files_info.py) against its natural-language specification.

The Python code is shallowly embedded: strings stay strings, the filesystem
and the model backend become explicit function-valued parameters
(`Filesystem`, `Backend`), Python exceptions become `Except`, and the
`for`-loop of `main` becomes fuel-indexed structural recursion (the fuel is
the literal iteration bound `20` of `for _ in range(20)`).
-/

/-! ## String helpers

Python compares strings lexicographically by code point; `sorted(items)` in
`get_files_info` therefore sorts by that order.  The standard-library string
order of Lean is not kernel-reducible, so the embedding carries its own
code-point-lexicographic comparison on `String.data`.
-/

/-- Lexicographic less-or-equal on character lists by code point, mirroring
Python string comparison. -/
def charListLe : List Char → List Char → Bool
  | [], _ => true
  | _ :: _, [] => false
  | a :: as, b :: bs => if a < b then true else if b < a then false else charListLe as bs

/-- The string order used by Python `sorted` on file names. -/
def strLeR (a b : String) : Prop := charListLe a.data b.data = true

instance : DecidableRel strLeR := fun _ _ => instDecidableEqBool _ _

/-- Totality of `charListLe`. -/
theorem chle_total : ∀ x y, charListLe x y = true ∨ charListLe y x = true := by
  intro x
  induction x with
  | nil => intro y; left; rfl
  | cons a as ih =>
    intro y
    cases y with
    | nil => right; rfl
    | cons b bs =>
      rcases lt_trichotomy a b with h | h | h
      · left; simp [charListLe, h]
      · subst h
        rcases ih bs with h2 | h2
        · left; simp [charListLe, h2]
        · right; simp [charListLe, h2]
      · right; simp [charListLe, h]

/-- Transitivity of `charListLe`. -/
theorem chle_trans :
    ∀ x y z, charListLe x y = true → charListLe y z = true → charListLe x z = true := by
  intro x
  induction x with
  | nil => intro y z _ _; rfl
  | cons a as ih =>
    intro y z h1 h2
    cases y with
    | nil => simp [charListLe] at h1
    | cons b bs =>
      cases z with
      | nil => simp [charListLe] at h2
      | cons c cs =>
        simp only [charListLe] at h1 h2 ⊢
        by_cases hab : a < b
        · by_cases hbc : b < c
          · simp [lt_trans hab hbc]
          · by_cases hcb : c < b
            · simp [hbc, hcb] at h2
            · have : b = c := le_antisymm (not_lt.mp hcb) (not_lt.mp hbc)
              subst this
              simp [hab]
        · by_cases hba : b < a
          · simp [hab, hba] at h1
          · have : a = b := le_antisymm (not_lt.mp hba) (not_lt.mp hab)
            subst this
            by_cases hbc : a < c
            · simp [hbc]
            · by_cases hcb : c < a
              · simp [hbc, hcb] at h2
              · have : a = c := le_antisymm (not_lt.mp hcb) (not_lt.mp hbc)
                subst this
                simp [hab] at h1 h2 ⊢
                exact ih _ _ h1 h2

instance : IsTotal String strLeR := ⟨fun a b => chle_total a.data b.data⟩

instance : IsTrans String strLeR := ⟨fun a b c => chle_trans a.data b.data c.data⟩

/-- The embedding of Python `sorted` on a list of names. -/
def sortNames (l : List String) : List String := List.insertionSort strLeR l

/-- The embedding of Python `str.strip()`: drop whitespace from both ends. -/
def pyStrip (s : String) : String :=
  ⟨((s.data.dropWhile Char.isWhitespace).reverse.dropWhile Char.isWhitespace).reverse⟩

/-- Boolean test that the first list is an initial segment (equal or strict)
of the second; used both for `str.startswith` and for path-segment
containment. -/
def isLeading [BEq α] : List α → List α → Bool
  | [], _ => true
  | _ :: _, [] => false
  | a :: as, b :: bs => a == b && isLeading as bs

/-- The embedding of Python `s.startswith(p)`. -/
def strStartsWith (s p : String) : Bool := isLeading p.data s.data

/-- True when the last character of `s` is `c` (used for `os.path.join`). -/
def strLastIs (s : String) (c : Char) : Bool := s.data.getLast? == some c

/-- The embedding of Python `s.endswith(p)`. -/
def strEndsWith (s p : String) : Bool := isLeading p.data.reverse s.data.reverse

/-- Rendering of a Python `bool` inside an f-string (`True` / `False`). -/
def pyBool : Bool → String
  | true => "True"
  | false => "False"

/-! ## Canonical paths and the filesystem model

`os.path.realpath(os.path.abspath(p))` is modelled as an abstract
canonicalisation function `Filesystem.canon` producing a `CanonPath`: a
root/drive identifier plus the sequence of path segments, with `.`/`..` and
symlinks already resolved.  `os.path.commonpath` on two such paths is the
longest common segment run when the drives agree, and raises `ValueError`
(here: `none`) when they do not.
-/

/-- A fully resolved absolute path: drive/root plus path segments. -/
structure CanonPath where
  drive : String
  segs : List String
deriving DecidableEq

/-- Longest common initial run of two segment lists. -/
def commonStem : List String → List String → List String
  | a :: as, b :: bs => if a = b then a :: commonStem as bs else []
  | _, _ => []

/-- The embedding of `os.path.commonpath([p, q])`: `none` models the
`ValueError` raised for paths on unrelated drives/roots. -/
def commonpath (p q : CanonPath) : Option CanonPath :=
  if p.drive = q.drive then some ⟨p.drive, commonStem p.segs q.segs⟩ else none

/-- The embedding of `os.path.join(a, b)` for POSIX paths: an absolute `b`
replaces `a`, otherwise the two are joined with a separator. -/
def ospath_join (a b : String) : String :=
  if strStartsWith b "/" then b
  else if a == "" || strLastIs a '/' then a ++ b
  else a ++ "/" ++ b

/-- The path of a directory entry: `os.path.join(abs_target, item)` on an
already-canonical directory path. -/
def childPath (p : CanonPath) (item : String) : CanonPath :=
  ⟨p.drive, p.segs ++ [item]⟩

/-- The ambient filesystem, abstracted as total observation functions.
`canon` is `os.path.realpath(os.path.abspath(.))`; `statSize` returns
`Except.error` to model an exception raised by `os.path.getsize`; the
`readFile` / `writeFile` / `runPython` fields back the spec-modelled
capabilities whose Python sources are not in `src/`, with `Except.error`
modelling an unexpected internal fault escaping the executor. -/
structure Filesystem where
  canon : String → CanonPath
  isDir : CanonPath → Bool
  listdir : CanonPath → List String
  statSize : CanonPath → Except String Nat
  fileExists : CanonPath → Bool
  readFile : CanonPath → Except String String
  writeFile : CanonPath → String → Except String Nat
  runPython : CanonPath → List String → Except String String

/-! ## The list capability: `get_files_info` (src/functions/get_files_info.py) -/

/-- The containment-failure message of `get_files_info`, naming the original
untrusted relative path. -/
def containmentError (directory : String) : String :=
  s!"Error: Cannot list \"{directory}\" as it is outside the permitted working directory"

/-- One line of listing output for one directory entry: name, byte size and
directory flag on success, an inline error notice when the stat raises. -/
def renderEntry (fs : Filesystem) (t : CanonPath) (item : String) : String :=
  let p := childPath t item
  match fs.statSize p with
  | Except.ok size =>
    let d := pyBool (fs.isDir p)
    s!"- {item}: file_size={size} bytes, is_dir={d}"
  | Except.error e => s!"- {item}: Error getting info: {e}"

/-- The successful listing payload: immediate entries only, sorted by name,
one rendered line per entry, joined by newlines. -/
def listingOf (fs : Filesystem) (t : CanonPath) : String :=
  String.intercalate "\n" ((sortNames (fs.listdir t)).map (renderEntry fs t))

/-- The part of `get_files_info` reached only after the containment check
passed: the is-directory check followed by the listing. -/
def listBranch (fs : Filesystem) (t : CanonPath) (directory : String) : String :=
  if fs.isDir t then listingOf fs t
  else s!"Error: \"{directory}\" is not a directory"

/-- The embedding of `get_files_info(working_directory, directory=".")`:
canonicalise the root and the joined target, require
`os.path.commonpath([abs_target, abs_work]) == abs_work` (with the
`ValueError` of unrelated drives also mapped to the containment error), then
list the target directory. -/
def get_files_info (fs : Filesystem) (working_directory directory : String) : String :=
  let abs_work := fs.canon working_directory
  let abs_target := fs.canon (ospath_join working_directory directory)
  match commonpath abs_target abs_work with
  | none => containmentError directory
  | some c =>
    if c ≠ abs_work then containmentError directory
    else listBranch fs abs_target directory

/-! ## Untrusted argument maps and the genai content types

`function_call_part.args` is a Python dict of model-supplied values.  It is
embedded as an association list; `setArg` is dict assignment
(`args["working_directory"] = ...`): it overwrites in place when the key is
present and appends otherwise.
-/

/-- A model-supplied argument value: the primitive shapes used by the
declared capability schemas (string, array-of-string) plus non-string values
a model could still send. -/
inductive Value
  | str (s : String)
  | num (n : Int)
  | boolean (b : Bool)
  | strs (l : List String)
deriving DecidableEq

/-- The untrusted argument map of one tool-call request. -/
def ArgMap := List (String × Value)
deriving DecidableEq

/-- Dict lookup: the value stored under `k`, if any. -/
def getArg : ArgMap → String → Option Value
  | [], _ => none
  | (k0, v0) :: rest, k => if k0 = k then some v0 else getArg rest k

/-- Dict assignment `m[k] = v`: overwrite in place, else append. -/
def setArg : ArgMap → String → Value → ArgMap
  | [], k, v => [(k, v)]
  | (k0, v0) :: rest, k, v =>
    if k0 = k then (k0, v) :: rest else (k0, v0) :: setArg rest k v

/-- A tool-call request produced by the backend (`types.FunctionCall`). -/
structure FunctionCall where
  name : String
  args : ArgMap
deriving DecidableEq

/-- The payload of a `function_response` part: the dict
`{"result": ...}` or `{"error": ...}` built by `call_function`. -/
inductive FRes
  | result (s : String)
  | error (s : String)
deriving DecidableEq

/-- One part of a content turn (`types.Part`): plain text, a tool-call
request, or a tool response. -/
inductive PartT
  | text (t : String)
  | functionCall (fc : FunctionCall)
  | functionResponse (name : String) (res : FRes)
deriving DecidableEq

/-- A conversation turn (`types.Content`). -/
structure Content where
  role : String
  parts : List PartT
deriving DecidableEq

/-- One backend candidate; `content` may be absent. -/
structure Candidate where
  content : Option Content
deriving DecidableEq

/-- A backend response: its candidates plus the convenience `response.text`
field computed by the client library (absent or empty when there is none). -/
structure Response where
  candidates : List Candidate
  text : Option String
deriving DecidableEq

/-! ## Capability executors

`call_function` calls `func(**args)`.  Each registry entry is therefore
embedded as a keyword-binding wrapper `kw_*`: it mirrors Python call
semantics (an unexpected keyword or a missing required keyword raises
`TypeError`, modelled as `Except.error`) and then runs the capability body.
Only `get_files_info` has its source under `src/`; the other three bodies
are modelled from the spec.
-/

/-- An executor as seen by the registry: the untrusted argument map applied
to the Python function, `Except.error` modelling a raised exception. -/
def Executor := Filesystem → ArgMap → Except String String

/-- First argument key not accepted by the function signature, if any. -/
def findExtra (allowed : List String) (args : ArgMap) : Option String :=
  match args.find? (fun kv => !(allowed.contains kv.1)) with
  | some kv => some kv.1
  | none => none

/-- Keyword binding for `get_files_info(working_directory, directory=".")`.
A non-string argument reaching the body would raise `TypeError` inside the
try of `get_files_info` itself and come back as an `Error:` string (the
message text is schematic), not as an exception. -/
def kw_get_files_info : Executor := fun fs args =>
  match findExtra ["working_directory", "directory"] args with
  | some k => Except.error s!"get_files_info() got an unexpected keyword argument: {k}"
  | none =>
    match getArg args "working_directory" with
    | none => Except.error "get_files_info() missing 1 required argument: working_directory"
    | some (Value.str wd) =>
      match getArg args "directory" with
      | none => Except.ok (get_files_info fs wd ".")
      | some (Value.str d) => Except.ok (get_files_info fs wd d)
      | some _ => Except.ok "Error: join() argument must be a string"
    | some _ => Except.ok "Error: path argument must be a string"

/-- Modelled from the spec: the body of `get_file_content`
(src/functions/get_file_content.py is not under src/).  Spec 4.2 Read:
resolve `file_path` through the sandbox, fail outside the root or when the
target is missing, return the content truncated at a configured bound with a
truncation marker; an unexpected read fault escapes to the registry. -/
def MAX_FILE_CHARS : Nat := 10000

/-- Modelled from the spec: `get_file_content(working_directory, file_path)`. -/
def get_file_content (fs : Filesystem) (working_directory file_path : String) :
    Except String String :=
  let abs_work := fs.canon working_directory
  let abs_target := fs.canon (ospath_join working_directory file_path)
  match commonpath abs_target abs_work with
  | none =>
    Except.ok s!"Error: Cannot read \"{file_path}\" as it is outside the permitted working directory"
  | some c =>
    if c ≠ abs_work then
      Except.ok s!"Error: Cannot read \"{file_path}\" as it is outside the permitted working directory"
    else if !fs.fileExists abs_target then
      Except.ok s!"Error: File not found or is not a regular file: \"{file_path}\""
    else
      match fs.readFile abs_target with
      | Except.error e => Except.error e
      | Except.ok content =>
        if MAX_FILE_CHARS < content.length then
          Except.ok ((String.mk (content.data.take MAX_FILE_CHARS)) ++
            s!"[...File \"{file_path}\" truncated at 10000 characters]")
        else Except.ok content

/-- Keyword binding for `get_file_content(working_directory, file_path)`. -/
def kw_get_file_content : Executor := fun fs args =>
  match findExtra ["working_directory", "file_path"] args with
  | some k => Except.error s!"get_file_content() got an unexpected keyword argument: {k}"
  | none =>
    match getArg args "working_directory", getArg args "file_path" with
    | none, _ => Except.error "get_file_content() missing 1 required argument: working_directory"
    | _, none => Except.error "get_file_content() missing 1 required argument: file_path"
    | some (Value.str wd), some (Value.str fp) => get_file_content fs wd fp
    | _, _ => Except.error "TypeError: path arguments must be strings"

/-- Modelled from the spec: the body of `write_file`
(src/functions/write_file.py is not under src/).  Spec 4.2 Write: resolve
`file_path`, fail outside the root, overwrite entirely, succeed with a
confirmation including the byte count; an unexpected write fault escapes to
the registry. -/
def write_file (fs : Filesystem) (working_directory file_path content : String) :
    Except String String :=
  let abs_work := fs.canon working_directory
  let abs_target := fs.canon (ospath_join working_directory file_path)
  match commonpath abs_target abs_work with
  | none =>
    Except.ok s!"Error: Cannot write to \"{file_path}\" as it is outside the permitted working directory"
  | some c =>
    if c ≠ abs_work then
      Except.ok s!"Error: Cannot write to \"{file_path}\" as it is outside the permitted working directory"
    else
      match fs.writeFile abs_target content with
      | Except.error e => Except.error e
      | Except.ok n => Except.ok s!"Successfully wrote to \"{file_path}\" ({n} bytes written)"

/-- Keyword binding for `write_file(working_directory, file_path, content)`. -/
def kw_write_file : Executor := fun fs args =>
  match findExtra ["working_directory", "file_path", "content"] args with
  | some k => Except.error s!"write_file() got an unexpected keyword argument: {k}"
  | none =>
    match getArg args "working_directory", getArg args "file_path", getArg args "content" with
    | none, _, _ => Except.error "write_file() missing 1 required argument: working_directory"
    | _, none, _ => Except.error "write_file() missing 1 required argument: file_path"
    | _, _, none => Except.error "write_file() missing 1 required argument: content"
    | some (Value.str wd), some (Value.str fp), some (Value.str ct) => write_file fs wd fp ct
    | _, _, _ => Except.error "TypeError: write_file arguments must be strings"

/-- Modelled from the spec: the body of `run_python_file`
(src/functions/run_python.py is not under src/).  Spec 4.2 Execute: resolve
`file_path`, fail outside the root, when missing, or when not a Python
file; run it with the given arguments, folding output and exit status into
the payload; a spawn fault escapes to the registry. -/
def run_python_file (fs : Filesystem) (working_directory file_path : String)
    (args : List String) : Except String String :=
  let abs_work := fs.canon working_directory
  let abs_target := fs.canon (ospath_join working_directory file_path)
  match commonpath abs_target abs_work with
  | none =>
    Except.ok s!"Error: Cannot execute \"{file_path}\" as it is outside the permitted working directory"
  | some c =>
    if c ≠ abs_work then
      Except.ok s!"Error: Cannot execute \"{file_path}\" as it is outside the permitted working directory"
    else if !fs.fileExists abs_target then
      Except.ok s!"Error: File \"{file_path}\" not found."
    else if !strEndsWith file_path ".py" then
      Except.ok s!"Error: \"{file_path}\" is not a Python file."
    else
      match fs.runPython abs_target args with
      | Except.error e => Except.error e
      | Except.ok out => Except.ok out

/-- Keyword binding for
`run_python_file(working_directory, file_path, args=[])`. -/
def kw_run_python_file : Executor := fun fs args =>
  match findExtra ["working_directory", "file_path", "args"] args with
  | some k => Except.error s!"run_python_file() got an unexpected keyword argument: {k}"
  | none =>
    match getArg args "working_directory", getArg args "file_path" with
    | none, _ => Except.error "run_python_file() missing 1 required argument: working_directory"
    | _, none => Except.error "run_python_file() missing 1 required argument: file_path"
    | some (Value.str wd), some (Value.str fp) =>
      match getArg args "args" with
      | none => run_python_file fs wd fp []
      | some (Value.strs l) => run_python_file fs wd fp l
      | some _ => Except.error "TypeError: args must be a list of strings"
    | _, _ => Except.error "TypeError: path arguments must be strings"

/-! ## The capability registry and dispatch (`call_function` in src/main.py) -/

/-- The fixed registry of `call_function`: capability name to executor. -/
def registryFind : String → Option Executor
  | "get_files_info" => some kw_get_files_info
  | "get_file_content" => some kw_get_file_content
  | "run_python_file" => some kw_run_python_file
  | "write_file" => some kw_write_file
  | _ => none

/-- The value injected under the reserved key:
`args["working_directory"] = "./calculator"`. -/
def workingRootValue : Value := Value.str "./calculator"

/-- The failure message built in the except-branch of `call_function`. -/
def execFailMsg (e : String) : String := s!"Execution failed: {e}"

/-- The failure message for a name missing from the registry. -/
def unknownMsg (name : String) : String := s!"Unknown function: {name}"

/-- The `types.Content` turn built by `call_function`: role `tool`, one
`function_response` part. -/
def mkToolMsg (name : String) (res : FRes) : Content :=
  ⟨"tool", [PartT.functionResponse name res]⟩

/-- The embedding of `call_function`, instrumented with a flag recording
whether the executor invocation `func(**args)` was reached (`false` exactly
on the unknown-name early return).  Known names first get
`working_directory` overwritten, then the call runs inside try/except. -/
def callFunctionCore (fs : Filesystem) (fc : FunctionCall) : Content × Bool :=
  match registryFind fc.name with
  | none => (mkToolMsg fc.name (FRes.error (unknownMsg fc.name)), false)
  | some ex =>
    let args := setArg fc.args "working_directory" workingRootValue
    match ex fs args with
    | Except.ok s => (mkToolMsg fc.name (FRes.result s), true)
    | Except.error e => (mkToolMsg fc.name (FRes.error (execFailMsg e)), true)

/-- `call_function` as the loop sees it: just the returned tool turn. -/
def callFunction (fs : Filesystem) (fc : FunctionCall) : Content :=
  (callFunctionCore fs fc).1

/-! ## The agent loop (`main` in src/main.py) -/

/-- The backend: `client.models.generate_content` applied to the transcript,
`Except.error` modelling an exception caught by the try around the call. -/
structure Backend where
  gen : List Content → Except String Response

/-- How one run of the loop ends.  `fatalBackend` is the `sys.exit(1)` after
a generation error; `noCandidates` is the early break on an empty candidate
list; `final` / `noOutput` are the no-tool-call break with and without text;
`iterLimit` is the for-else after 20 iterations. -/
inductive LoopResult
  | fatalBackend (e : String)
  | noCandidates
  | final (t : String)
  | noOutput
  | iterLimit
deriving DecidableEq

/-- True on parts that carry a tool-call request. -/
def partIsFC : PartT → Bool
  | PartT.functionCall _ => true
  | _ => false

/-- True when a candidate contributes at least one tool-call request. -/
def candHasFC (c : Candidate) : Bool :=
  match c.content with
  | some ct => ct.parts.any partIsFC
  | none => false

/-- True when a response contains at least one tool-call request. -/
def hasToolCall (r : Response) : Bool := r.candidates.any candHasFC

/-- The inner part loop of one candidate: append tool turns for each
function call, tracking `had_function_call`. -/
def processParts (fs : Filesystem) : List PartT → List Content → Bool → List Content × Bool
  | [], ms, had => (ms, had)
  | PartT.functionCall fc :: rest, ms, _ =>
    processParts fs rest (ms ++ [callFunction fs fc]) true
  | _ :: rest, ms, had => processParts fs rest ms had

/-- The candidate loop: append each candidate content to the transcript,
then its tool turns. -/
def processCands (fs : Filesystem) : List Candidate → List Content → Bool → List Content × Bool
  | [], ms, had => (ms, had)
  | c :: rest, ms, had =>
    match c.content with
    | none => processCands fs rest ms had
    | some ct =>
      let st := processParts fs ct.parts (ms ++ [ct]) had
      processCands fs rest st.1 st.2

/-- Text of a part if it is nonempty text (the generator
`p.text for p in first.parts if p.text`). -/
def partTextOf : PartT → Option String
  | PartT.text t => if t = "" then none else some t
  | _ => none

/-- The fallback text joined from the first candidate when `response.text`
is falsy. -/
def respFallback (r : Response) : String :=
  match r.candidates with
  | [] => ""
  | c :: _ =>
    match c.content with
    | none => ""
    | some ct => String.intercalate "\n" (ct.parts.filterMap partTextOf)

/-- The final text the loop prints: `response.text` when truthy, else the
fallback join. -/
def respText (r : Response) : String :=
  match r.text with
  | some t => if t = "" then respFallback r else t
  | none => respFallback r

/-- The termination outcome of an iteration whose response carried no
tool-call request (including the early no-candidates break). -/
def noToolOutcome (r : Response) : LoopResult :=
  if r.candidates.isEmpty then LoopResult.noCandidates
  else if respText r = "" then LoopResult.noOutput
  else LoopResult.final (respText r)

/-- The agent loop `for _ in range(20)`, with remaining fuel as the second
argument; the result is paired with the number of backend calls made. -/
def loopFrom (fs : Filesystem) (b : Backend) : List Content → Nat → LoopResult × Nat
  | _, 0 => (LoopResult.iterLimit, 0)
  | msgs, Nat.succ n =>
    match b.gen msgs with
    | Except.error e => (LoopResult.fatalBackend e, 1)
    | Except.ok r =>
      if r.candidates.isEmpty then (LoopResult.noCandidates, 1)
      else
        let st := processCands fs r.candidates msgs false
        if st.2 then
          let rec1 := loopFrom fs b st.1 n
          (rec1.1, rec1.2 + 1)
        else (noToolOutcome r, 1)

/-- The user-visible line printed for each loop outcome. -/
def loopMessage : LoopResult → String
  | LoopResult.fatalBackend e => s!"Error during generation: {e}"
  | LoopResult.noCandidates => "No output produced."
  | LoopResult.final t => s!"Final response:\n{t}"
  | LoopResult.noOutput => "No output produced."
  | LoopResult.iterLimit => "Reached iteration limit without a final response."

/-- The process exit code for each loop outcome: only the backend fault
calls `sys.exit(1)`; every other outcome falls out of `main` normally. -/
def loopExitCode : LoopResult → Nat
  | LoopResult.fatalBackend _ => 1
  | _ => 0

/-! ## The CLI (argument parsing at the top of `main`) -/

/-- How argument parsing ends: a usage error with an exit code, or a run
with the assembled prompt and the verbose flag. -/
inductive CliOutcome
  | usage (msg : String) (code : Nat)
  | run (prompt : String) (verbose : Bool)
deriving DecidableEq

/-- True on arguments treated as flags (everything starting with `--`). -/
def isFlagArg (a : String) : Bool := strStartsWith a "--"

/-- The embedding of the argument handling of `main`, applied to
`sys.argv[1:]`: empty argv exits with a usage error, `--verbose` sets the
flag, other `--` arguments are skipped, the rest join into the prompt, and
an empty stripped prompt exits with a usage error. -/
def parseCli (argv : List String) : CliOutcome :=
  if argv = [] then CliOutcome.usage "Error, try again" 1
  else
    let verbose := argv.any (fun a => a == "--verbose")
    let prompt := pyStrip (String.intercalate " " (argv.filter (fun a => !isFlagArg a)))
    if prompt = "" then CliOutcome.usage "Error: No prompt provided." 1
    else CliOutcome.run prompt verbose

/-! ## Declared capability schemas

`schema_get_files_info` is embedded from src/functions/get_files_info.py;
the other three declarations are modelled from the spec (section 6: each
capability declares required vs. optional arguments of primitive types).
`schemaMatches` itself is modelled from the spec wording (section 9):
required keys present, supplied keys declared, value types matching — the
code under src/ contains no such check.
-/

/-- A primitive parameter type of a declared schema. -/
inductive PType
  | string
  | stringArray
deriving DecidableEq

/-- One declared parameter: name, type, and whether it is required. -/
structure ParamSpec where
  pname : String
  ptype : PType
  required : Bool
deriving DecidableEq

/-- The declared parameters of each capability.  `get_files_info` comes from
`schema_get_files_info` in the source (one optional string `directory`);
the other three are modelled from the spec (sections 4.2 and 6). -/
def schemaParams : String → Option (List ParamSpec)
  | "get_files_info" => some [⟨"directory", PType.string, false⟩]
  | "get_file_content" => some [⟨"file_path", PType.string, true⟩]
  | "write_file" =>
    some [⟨"file_path", PType.string, true⟩, ⟨"content", PType.string, true⟩]
  | "run_python_file" =>
    some [⟨"file_path", PType.string, true⟩, ⟨"args", PType.stringArray, false⟩]
  | _ => none

/-- Whether a value fits a declared primitive type. -/
def typeMatches : PType → Value → Bool
  | PType.string, Value.str _ => true
  | PType.stringArray, Value.strs _ => true
  | _, _ => false

/-- Modelled from the spec: validation of an untrusted argument map against
the declared schema of the named capability — required keys present, every
supplied key declared with a matching value type. -/
def schemaMatches (name : String) (args : ArgMap) : Bool :=
  match schemaParams name with
  | none => false
  | some ps =>
    ps.all (fun p => !p.required || args.any (fun kv => kv.1 == p.pname)) &&
      args.all (fun kv => ps.any (fun p => p.pname == kv.1 && typeMatches p.ptype kv.2))

/-! ## Concrete fixtures used by witnesses and counterexamples -/

/-- The canonical sandbox root used by the concrete fixtures. -/
def cpRoot : CanonPath := ⟨"/", ["home", "calculator"]⟩

/-- A minimal concrete filesystem: everything canonicalises to the root,
which is an empty directory. -/
def fsX : Filesystem where
  canon := fun _ => cpRoot
  isDir := fun _ => true
  listdir := fun _ => []
  statSize := fun _ => Except.ok 0
  fileExists := fun _ => true
  readFile := fun _ => Except.ok ""
  writeFile := fun _ _ => Except.ok 0
  runPython := fun _ _ => Except.ok ""

/-- A concrete filesystem whose root directory holds two entries, the stat
of `b` raising. -/
def fsY : Filesystem where
  canon := fun _ => cpRoot
  isDir := fun _ => true
  listdir := fun _ => ["b", "a"]
  statSize := fun p => if p = childPath cpRoot "b" then Except.error "boom" else Except.ok 5
  fileExists := fun _ => true
  readFile := fun _ => Except.ok ""
  writeFile := fun _ _ => Except.ok 0
  runPython := fun _ _ => Except.ok ""

/-- A response consisting of one tool-call request and no text. -/
def respTool : Response :=
  ⟨[⟨some ⟨"model", [PartT.functionCall ⟨"get_files_info", []⟩]⟩⟩], none⟩

/-- A backend that always requests another tool call. -/
def bTool : Backend := ⟨fun _ => Except.ok respTool⟩

/-- A backend whose responses carry no candidates at all. -/
def bEmpty : Backend := ⟨fun _ => Except.ok ⟨[], none⟩⟩

/-! ## Helper lemmas -/

/-- Dict assignment to the same key twice keeps only the second value. -/
theorem setArg_setArg : ∀ (m : ArgMap) (k : String) (v w : Value),
    setArg (setArg m k v) k w = setArg m k w := by
  intro m k v w
  induction m with
  | nil => simp [setArg]
  | cons kv rest ih =>
    by_cases h : kv.1 = k
    · simp [setArg, h]
    · simp [setArg, h, ih]

/-- Looking up a key just assigned returns the assigned value. -/
theorem getArg_setArg : ∀ (m : ArgMap) (k : String) (v : Value),
    getArg (setArg m k v) k = some v := by
  intro m k v
  induction m with
  | nil => simp [setArg, getArg]
  | cons kv rest ih =>
    by_cases h : kv.1 = k
    · simp [setArg, h, getArg]
    · simp [setArg, h, getArg, ih]

/-- The common initial run of two segment lists equals the second list
exactly when the second is an initial segment of the first. -/
theorem commonStem_eq_right :
    ∀ (a b : List String), commonStem a b = b ↔ isLeading b a = true := by
  intro a
  induction a with
  | nil =>
    intro b
    cases b <;> simp [commonStem, isLeading]
  | cons x xs ih =>
    intro b
    cases b with
    | nil => simp [commonStem, isLeading]
    | cons y ys =>
      by_cases hxy : x = y
      · subst hxy
        simp [commonStem, isLeading, ih]
      · simp [commonStem, isLeading, hxy, Ne.symm hxy]

/-- String append acts as list append on the underlying characters. -/
theorem string_data_append (s t : String) : (s ++ t).data = s.data ++ t.data := by
  cases s
  cases t
  rfl

/-- A string whose first character differs from the first character of `p`
is not of the form `p ++ d` for any `d`. -/
theorem ne_append_of_head_ne (a p : String) (c1 c2 : Char)
    (ha : a.data.head? = some c1) (hp : p.data.head? = some c2) (hne : c1 ≠ c2) :
    ∀ d : String, a ≠ p ++ d := by
  intro d h
  apply hne
  have h2 : a.data = p.data ++ d.data := by rw [h, string_data_append]
  cases hpd : p.data with
  | nil => rw [hpd] at hp; simp at hp
  | cons x xs =>
    rw [hpd] at hp h2
    have h3 : a.data.head? = some x := by rw [h2]; simp
    rw [ha] at h3
    have hx : x = c2 := by simpa using hp
    have hy : c1 = x := by simpa using h3
    rw [hy, hx]

/-- The `had_function_call` flag after the part loop: the incoming flag or
the presence of a function call among the parts. -/
theorem processParts_snd (fs : Filesystem) :
    ∀ (parts : List PartT) (ms : List Content) (had : Bool),
      (processParts fs parts ms had).2 = (had || parts.any partIsFC) := by
  intro parts
  induction parts with
  | nil => intro ms had; simp [processParts]
  | cons p rest ih =>
    intro ms had
    cases p with
    | text t => simp [processParts, ih, partIsFC]
    | functionCall fc => simp [processParts, ih, partIsFC]
    | functionResponse nm res => simp [processParts, ih, partIsFC]

/-- The `had_function_call` flag after the candidate loop. -/
theorem processCands_snd (fs : Filesystem) :
    ∀ (cands : List Candidate) (ms : List Content) (had : Bool),
      (processCands fs cands ms had).2 = (had || cands.any candHasFC) := by
  intro cands
  induction cands with
  | nil => intro ms had; simp [processCands]
  | cons c rest ih =>
    intro ms had
    cases hc : c.content with
    | none => simp [processCands, hc, ih, candHasFC]
    | some ct =>
      simp [processCands, hc, ih, processParts_snd, candHasFC, Bool.or_assoc]

/-- One unfolding of the loop on an iteration whose response does contain a
tool-call request: the loop recurses with one more backend call counted. -/
theorem loopFrom_step (fs : Filesystem) (b : Backend) (msgs : List Content) (n : Nat)
    (r : Response) (hg : b.gen msgs = Except.ok r) (ht : hasToolCall r = true) :
    loopFrom fs b msgs (n + 1)
      = ((loopFrom fs b (processCands fs r.candidates msgs false).1 n).1,
         (loopFrom fs b (processCands fs r.candidates msgs false).1 n).2 + 1) := by
  have hne : r.candidates.isEmpty = false := by
    cases hcands : r.candidates with
    | nil => rw [hasToolCall, hcands] at ht; simp at ht
    | cons c cs => simp [hcands]
  have hsnd : (processCands fs r.candidates msgs false).2 = true := by
    rw [processCands_snd]
    simpa [hasToolCall] using ht
  simp [loopFrom, hg, hne, hsnd]

/-- The loop never makes more backend calls than it has fuel. -/
theorem loopFrom_calls_le (fs : Filesystem) (b : Backend) :
    ∀ (n : Nat) (msgs : List Content), (loopFrom fs b msgs n).2 ≤ n := by
  intro n
  induction n with
  | zero => intro msgs; simp [loopFrom]
  | succ n ih =>
    intro msgs
    simp only [loopFrom]
    cases hg : b.gen msgs with
    | error e => simp
    | ok r =>
      by_cases he : r.candidates.isEmpty
      · simp [he]
      · by_cases hs : (processCands fs r.candidates msgs false).2
        · simpa [he, hs] using Nat.succ_le_succ (ih _)
        · simp [he, hs]

/-- Against a backend that always requests tool calls, the loop burns all
its fuel and ends in the iteration-limit outcome. -/
theorem loopFrom_allTool (fs : Filesystem) (b : Backend)
    (H : ∀ m, ∃ r, b.gen m = Except.ok r ∧ hasToolCall r = true) :
    ∀ (n : Nat) (msgs : List Content),
      loopFrom fs b msgs n = (LoopResult.iterLimit, n) := by
  intro n
  induction n with
  | zero => intro msgs; rfl
  | succ n ih =>
    intro msgs
    obtain ⟨r, hg, ht⟩ := H msgs
    rw [loopFrom_step fs b msgs n r hg ht, ih]

/-! ## Claims -/

/-- C3: before invoking any registered capability, dispatch overwrites the
reserved `working_directory` argument with the fixed sandbox root, so the
tool result is independent of any model-supplied value under that key: a
dispatch with the key set to any value equals the dispatch without it, two
dispatches differing only in that value are equal, and the map the executor
receives holds the injected root under the reserved key. -/
theorem claim_C3 (fs : Filesystem) (name : String) (args : ArgMap) (v1 v2 : Value) :
    callFunction fs ⟨name, setArg args "working_directory" v1⟩
        = callFunction fs ⟨name, args⟩
      ∧ callFunction fs ⟨name, setArg args "working_directory" v1⟩
        = callFunction fs ⟨name, setArg args "working_directory" v2⟩
      ∧ getArg (setArg args "working_directory" workingRootValue) "working_directory"
        = some workingRootValue := by
  have key : ∀ v : Value,
      callFunction fs ⟨name, setArg args "working_directory" v⟩
        = callFunction fs ⟨name, args⟩ := by
    intro v
    simp only [callFunction, callFunctionCore]
    cases h : registryFind name with
    | none => rfl
    | some ex => simp [setArg_setArg]
  exact ⟨key v1, (key v1).trans (key v2).symm, getArg_setArg args _ _⟩

/-- C4 (amended): when the executor invocation of a registered capability
raises, `call_function` catches it and returns a tool turn whose error
message is `Execution failed: <detail>` (capital E, as the code writes it);
the exception never escapes dispatch, and the loop goes on to its next
backend call after a turn that contained tool-call requests. -/
theorem claim_C4 (fs : Filesystem) (fc : FunctionCall) (ex : Executor) (e : String)
    (hreg : registryFind fc.name = some ex)
    (herr : ex fs (setArg fc.args "working_directory" workingRootValue) = Except.error e) :
    callFunction fs fc = mkToolMsg fc.name (FRes.error (execFailMsg e))
      ∧ ∀ (b : Backend) (msgs : List Content) (n : Nat) (r : Response),
          b.gen msgs = Except.ok r → hasToolCall r = true →
          loopFrom fs b msgs (n + 1)
            = ((loopFrom fs b (processCands fs r.candidates msgs false).1 n).1,
               (loopFrom fs b (processCands fs r.candidates msgs false).1 n).2 + 1) := by
  constructor
  · simp only [callFunction, callFunctionCore, hreg, herr]
  · exact fun b msgs n r hg ht => loopFrom_step fs b msgs n r hg ht

/-- Witness for C4: a `write_file` request missing its required `content`
argument makes the keyword binding raise, and dispatch converts that into
the `Execution failed:` tool error. -/
theorem claim_C4_witness :
    callFunction fsX ⟨"write_file", [("file_path", Value.str "a.txt")]⟩
      = mkToolMsg "write_file"
          (FRes.error (execFailMsg "write_file() missing 1 required argument: content")) :=
  (claim_C4 fsX ⟨"write_file", [("file_path", Value.str "a.txt")]⟩ kw_write_file
      "write_file() missing 1 required argument: content" rfl rfl).1

/-- Counterexample for C4 as stated: at a concrete failing invocation the
executor raises, yet the reported message reads `Execution failed: ...`,
which is not `execution failed: <detail>` for any detail string. -/
theorem claim_C4_counterexample :
    kw_write_file fsX
        (setArg [("file_path", Value.str "a.txt")] "working_directory" workingRootValue)
      = Except.error "write_file() missing 1 required argument: content"
    ∧ callFunction fsX ⟨"write_file", [("file_path", Value.str "a.txt")]⟩
      = mkToolMsg "write_file"
          (FRes.error "Execution failed: write_file() missing 1 required argument: content")
    ∧ ∀ d : String,
        "Execution failed: write_file() missing 1 required argument: content"
          ≠ "execution failed: " ++ d := by
  refine ⟨rfl, by decide, ?_⟩
  exact ne_append_of_head_ne _ _ 'E' 'e' rfl rfl (by decide)

/-- C5 (amended): a capability name outside the fixed registry is answered
with the failure `Unknown function: <name>` (the message the code builds)
without invoking any executor — the invocation flag stays false and the
result does not depend on the filesystem — and a turn carrying such a
request still sends the loop on to its next backend call. -/
theorem claim_C5 (fs : Filesystem) (name : String) (args : ArgMap)
    (h : registryFind name = none) :
    callFunction fs ⟨name, args⟩ = mkToolMsg name (FRes.error (unknownMsg name))
      ∧ (callFunctionCore fs ⟨name, args⟩).2 = false
      ∧ (∀ fs2 : Filesystem, callFunction fs2 ⟨name, args⟩ = callFunction fs ⟨name, args⟩)
      ∧ ∀ (b : Backend) (msgs : List Content) (n : Nat) (r : Response),
          b.gen msgs = Except.ok r → hasToolCall r = true →
          loopFrom fs b msgs (n + 1)
            = ((loopFrom fs b (processCands fs r.candidates msgs false).1 n).1,
               (loopFrom fs b (processCands fs r.candidates msgs false).1 n).2 + 1) := by
  refine ⟨?_, ?_, ?_, fun b msgs n r hg ht => loopFrom_step fs b msgs n r hg ht⟩
  · simp only [callFunction, callFunctionCore, h]
  · simp only [callFunctionCore, h]
  · intro fs2
    simp only [callFunction, callFunctionCore, h]

/-- Witness for C5: the unregistered name `frobnicate` is rejected with the
unknown-function failure. -/
theorem claim_C5_witness :
    callFunction fsX ⟨"frobnicate", []⟩
      = mkToolMsg "frobnicate" (FRes.error (unknownMsg "frobnicate")) :=
  (claim_C5 fsX "frobnicate" [] rfl).1

/-- Counterexample for C5 as stated: the failure message for the unknown
name `frobnicate` is `Unknown function: frobnicate`, not the claimed
`unknown capability: frobnicate`. -/
theorem claim_C5_counterexample :
    callFunction fsX ⟨"frobnicate", []⟩
        = mkToolMsg "frobnicate" (FRes.error "Unknown function: frobnicate")
      ∧ callFunction fsX ⟨"frobnicate", []⟩
        ≠ mkToolMsg "frobnicate" (FRes.error "unknown capability: frobnicate") :=
  ⟨by decide, by decide⟩

/-- C7 (amended): dispatch performs no schema validation — every request
naming a registered capability reaches the executor invocation
`func(**args)` regardless of its argument map, and a keyword mismatch
surfaces as a raised `TypeError` caught at the registry boundary and
reported as `Execution failed: <detail>`, not as a pre-dispatch validation
rejection. -/
theorem claim_C7 (fs : Filesystem) (name : String) (ex : Executor) (args : ArgMap)
    (hreg : registryFind name = some ex) :
    (callFunctionCore fs ⟨name, args⟩).2 = true
      ∧ ∀ e, ex fs (setArg args "working_directory" workingRootValue) = Except.error e →
          callFunction fs ⟨name, args⟩ = mkToolMsg name (FRes.error (execFailMsg e)) := by
  constructor
  · cases hx : ex fs (setArg args "working_directory" workingRootValue) with
    | ok s => simp [callFunctionCore, hreg, hx]
    | error e => simp [callFunctionCore, hreg, hx]
  · intro e he
    simp only [callFunction, callFunctionCore, hreg, he]

/-- Witness for C7: a `get_files_info` request reaches the executor
invocation. -/
theorem claim_C7_witness :
    (callFunctionCore fsX ⟨"get_files_info", [("file_path", Value.str "x")]⟩).2 = true :=
  (claim_C7 fsX "get_files_info" kw_get_files_info [("file_path", Value.str "x")] rfl).1

/-- Counterexample for C7 as stated: the argument map `{file_path: "x"}`
does not match the declared schema of `get_files_info`, yet dispatch still
passes it to the executor invocation, and the outcome is the generic
executor-fault failure `Execution failed: ...` rather than a validation
rejection. -/
theorem claim_C7_counterexample :
    schemaMatches "get_files_info" [("file_path", Value.str "x")] = false
      ∧ (callFunctionCore fsX ⟨"get_files_info", [("file_path", Value.str "x")]⟩).2 = true
      ∧ (callFunctionCore fsX ⟨"get_files_info", [("file_path", Value.str "x")]⟩).1
        = mkToolMsg "get_files_info"
            (FRes.error
              "Execution failed: get_files_info() got an unexpected keyword argument: file_path") :=
  ⟨by decide, by decide, by decide⟩

/-- C2: the agent loop makes at most 20 backend calls; an iteration whose
response carries zero tool-call requests terminates the loop on that
response with its text as the final answer or the no-output fallback; and
against a backend whose responses always carry a tool-call request the loop
ends in the iteration-limit report after exactly 20 backend calls. -/
theorem claim_C2 (fs : Filesystem) (b : Backend) (msgs : List Content) :
    (loopFrom fs b msgs 20).2 ≤ 20
      ∧ (∀ (n : Nat) (r : Response), b.gen msgs = Except.ok r → hasToolCall r = false →
          loopFrom fs b msgs (n + 1) = (noToolOutcome r, 1))
      ∧ ((∀ m, ∃ r, b.gen m = Except.ok r ∧ hasToolCall r = true) →
          loopFrom fs b msgs 20 = (LoopResult.iterLimit, 20)) := by
  refine ⟨loopFrom_calls_le fs b 20 msgs, ?_, fun H => loopFrom_allTool fs b H 20 msgs⟩
  intro n r hg ht
  simp only [loopFrom, hg]
  by_cases he : r.candidates.isEmpty
  · simp [he, noToolOutcome]
  · have hsnd : (processCands fs r.candidates msgs false).2 = false := by
      rw [processCands_snd]
      simpa [hasToolCall] using ht
    simp [he, hsnd]

/-- Witness for C2: a backend that always requests a tool call drives the
loop to the iteration-limit outcome after exactly 20 backend calls. -/
theorem claim_C2_witness : loopFrom fsX bTool [] 20 = (LoopResult.iterLimit, 20) :=
  (claim_C2 fsX bTool []).2.2 (fun _ => ⟨respTool, rfl, rfl⟩)

/-- C9: a backend response with no candidates at all makes the loop print
`No output produced.` and break out after that single backend call, with
exit code 0 — an outcome distinct from both the fatal backend error and the
iteration-limit report. -/
theorem claim_C9 (fs : Filesystem) (b : Backend) (msgs : List Content) (n : Nat)
    (r : Response) (e : String)
    (hg : b.gen msgs = Except.ok r) (hc : r.candidates = []) :
    loopFrom fs b msgs (n + 1) = (LoopResult.noCandidates, 1)
      ∧ loopMessage LoopResult.noCandidates = "No output produced."
      ∧ loopExitCode LoopResult.noCandidates = 0
      ∧ LoopResult.noCandidates ≠ LoopResult.iterLimit
      ∧ LoopResult.noCandidates ≠ LoopResult.fatalBackend e := by
  refine ⟨?_, rfl, rfl, by simp, by simp⟩
  simp [loopFrom, hg, hc]

/-- Witness for C9: a concrete candidate-less backend ends the loop after
one call in the no-candidates outcome. -/
theorem claim_C9_witness : loopFrom fsX bEmpty [] 20 = (LoopResult.noCandidates, 1) :=
  (claim_C9 fsX bEmpty [] 19 ⟨[], none⟩ "x" rfl rfl).1

/-- C8: the CLI joins all non-flag arguments into the single prompt (or
exits with a usage error), any run whose stripped prompt is empty is a
usage error with exit code 1, and an unrecognized `--` flag is skipped
without being rejected — removing it from a non-degenerate argument list
does not change the outcome. -/
theorem claim_C8 (argv : List String) :
    (parseCli argv
        = CliOutcome.run
            (pyStrip (String.intercalate " " (argv.filter (fun a => !isFlagArg a))))
            (argv.any (fun a => a == "--verbose"))
      ∨ ∃ m, parseCli argv = CliOutcome.usage m 1)
      ∧ (pyStrip (String.intercalate " " (argv.filter (fun a => !isFlagArg a))) = "" →
          ∃ m, parseCli argv = CliOutcome.usage m 1)
      ∧ ∀ (pre post : List String) (f : String),
          isFlagArg f = true → f ≠ "--verbose" → pre ++ post ≠ [] →
          parseCli (pre ++ f :: post) = parseCli (pre ++ post) := by
  refine ⟨?_, ?_, ?_⟩
  · by_cases hn : argv = []
    · exact Or.inr ⟨"Error, try again", by simp [parseCli, hn]⟩
    · by_cases hp : pyStrip (String.intercalate " " (argv.filter (fun a => !isFlagArg a))) = ""
      · exact Or.inr ⟨"Error: No prompt provided.", by simp [parseCli, hn, hp]⟩
      · exact Or.inl (by simp [parseCli, hn, hp])
  · intro hp
    by_cases hn : argv = []
    · exact ⟨"Error, try again", by simp [parseCli, hn]⟩
    · exact ⟨"Error: No prompt provided.", by simp [parseCli, hn, hp]⟩
  · intro pre post f hf hv hne
    have h1 : pre ++ f :: post ≠ [] := by simp
    have hfil : (pre ++ f :: post).filter (fun a => !isFlagArg a)
        = (pre ++ post).filter (fun a => !isFlagArg a) := by
      simp [List.filter_append, List.filter_cons, hf]
    have hvb : (f == "--verbose") = false := beq_eq_false_iff_ne.mpr hv
    have hany : (pre ++ f :: post).any (fun a => a == "--verbose")
        = (pre ++ post).any (fun a => a == "--verbose") := by
      simp [List.any_append, List.any_cons, hvb]
    simp only [parseCli, h1, hne, hfil, hany, if_neg]

/-- Witness for C8: an unrecognized flag in front of a real prompt is
ignored. -/
theorem claim_C8_witness :
    parseCli ["--bogus", "hello", "world"] = parseCli ["hello", "world"] :=
  (claim_C8 ["hello", "world"]).2.2 [] ["hello", "world"] "--bogus"
    (by decide) (by decide) (by decide)

/-- C1: for every caller-supplied relative directory, `get_files_info`
either proceeds past the guardrail with the canonical root segment sequence
an equal-or-strict initial segment of the canonical target segment sequence
(the listing branch operating on that target), or returns the containment
error naming the original untrusted path — the unrelated-roots resolution
(where `os.path.commonpath` raises) also lands on the containment error
rather than escaping. -/
theorem claim_C1 (fs : Filesystem) (working_directory directory : String) :
    ((fs.canon working_directory).drive
          = (fs.canon (ospath_join working_directory directory)).drive
        ∧ isLeading (fs.canon working_directory).segs
            (fs.canon (ospath_join working_directory directory)).segs = true
        ∧ get_files_info fs working_directory directory
          = listBranch fs (fs.canon (ospath_join working_directory directory)) directory)
      ∨ get_files_info fs working_directory directory = containmentError directory := by
  simp only [get_files_info]
  generalize fs.canon (ospath_join working_directory directory) = t
  generalize fs.canon working_directory = w
  by_cases hd : t.drive = w.drive
  · by_cases hstem : commonStem t.segs w.segs = w.segs
    · left
      have hc : (⟨w.drive, commonStem t.segs w.segs⟩ : CanonPath) = w := by
        rw [hstem]
      refine ⟨hd.symm, (commonStem_eq_right t.segs w.segs).mp hstem, ?_⟩
      simp [commonpath, hd, hc]
    · right
      have hc : (⟨w.drive, commonStem t.segs w.segs⟩ : CanonPath) ≠ w := by
        intro h
        apply hstem
        simpa using congrArg CanonPath.segs h
      simp [commonpath, hd, hc]
  · right
    simp [commonpath, hd]

/-- C6: past the guardrail on a directory with distinct entry names,
`get_files_info` returns exactly the newline-join of one rendered line per
immediate entry, the entries in strictly ascending name order (the repeated
call on the unchanged directory state being the same pure value), a
successful stat rendering name, byte size and directory flag, and a failing
stat rendering an inline error notice for that entry alone. -/
theorem claim_C6 (fs : Filesystem) (wd dir : String)
    (hc : commonpath (fs.canon (ospath_join wd dir)) (fs.canon wd) = some (fs.canon wd))
    (hdir : fs.isDir (fs.canon (ospath_join wd dir)) = true)
    (hnd : (fs.listdir (fs.canon (ospath_join wd dir))).Nodup) :
    get_files_info fs wd dir
        = String.intercalate "\n"
            ((sortNames (fs.listdir (fs.canon (ospath_join wd dir)))).map
              (renderEntry fs (fs.canon (ospath_join wd dir))))
      ∧ (sortNames (fs.listdir (fs.canon (ospath_join wd dir)))).Perm
          (fs.listdir (fs.canon (ospath_join wd dir)))
      ∧ List.Pairwise (fun a b => strLeR a b ∧ a ≠ b)
          (sortNames (fs.listdir (fs.canon (ospath_join wd dir))))
      ∧ (∀ item sz,
          fs.statSize (childPath (fs.canon (ospath_join wd dir)) item) = Except.ok sz →
          renderEntry fs (fs.canon (ospath_join wd dir)) item
            = s!"- {item}: file_size={sz} bytes, is_dir={pyBool (fs.isDir (childPath (fs.canon (ospath_join wd dir)) item))}")
      ∧ ∀ item e,
          fs.statSize (childPath (fs.canon (ospath_join wd dir)) item) = Except.error e →
          renderEntry fs (fs.canon (ospath_join wd dir)) item
            = s!"- {item}: Error getting info: {e}" := by
  refine ⟨?_, List.perm_insertionSort _ _, ?_, ?_, ?_⟩
  · simp [get_files_info, hc, listBranch, hdir, listingOf]
  · exact (List.sorted_insertionSort strLeR _).and
      ((List.perm_insertionSort strLeR _).nodup_iff.mpr hnd)
  · intro item sz h
    simp [renderEntry, h]
  · intro item e h
    simp [renderEntry, h]

/-- Witness for C6: on a root directory holding entries `b` and `a` where
the stat of `b` raises, the listing shows `a` first with size and flag and
an inline error line for `b`. -/
theorem claim_C6_witness :
    get_files_info fsY "./calculator" "."
      = "- a: file_size=5 bytes, is_dir=True\n- b: Error getting info: boom" := by
  have h := claim_C6 fsY "./calculator" "." (by decide) rfl (by decide)
  rw [h.1]
  decide

/-- C10: past the guardrail on an empty in-root directory, the listing
payload is the empty string, and dispatching the request through
`call_function` wraps it as a successful result (not a failure). -/
theorem claim_C10 (fs : Filesystem) (dir : String)
    (hc : commonpath (fs.canon (ospath_join "./calculator" dir)) (fs.canon "./calculator")
        = some (fs.canon "./calculator"))
    (hdir : fs.isDir (fs.canon (ospath_join "./calculator" dir)) = true)
    (he : fs.listdir (fs.canon (ospath_join "./calculator" dir)) = []) :
    get_files_info fs "./calculator" dir = ""
      ∧ callFunction fs ⟨"get_files_info", [("directory", Value.str dir)]⟩
        = mkToolMsg "get_files_info" (FRes.result "") := by
  have h1 : get_files_info fs "./calculator" dir = "" := by
    simp [get_files_info, hc, listBranch, hdir, listingOf, he, sortNames,
      String.intercalate]
  refine ⟨h1, ?_⟩
  have h2 : kw_get_files_info fs
      (setArg [("directory", Value.str dir)] "working_directory" workingRootValue)
      = Except.ok (get_files_info fs "./calculator" dir) := rfl
  have hr : registryFind "get_files_info" = some kw_get_files_info := rfl
  simp [callFunction, callFunctionCore, hr, h2, h1]

/-- Witness for C10: the concrete empty-directory filesystem yields the
empty success payload through dispatch. -/
theorem claim_C10_witness :
    get_files_info fsX "./calculator" "src" = ""
      ∧ callFunction fsX ⟨"get_files_info", [("directory", Value.str "src")]⟩
        = mkToolMsg "get_files_info" (FRes.result "") :=
  claim_C10 fsX "src" (by decide) rfl rfl
